import Mathlib

/-!
Verification of `src/base/cache/cache_entry.hh` (class `gem5::CacheEntry`).

The C++ class holds a validity bit, a tag (of type `Addr`, a 64-bit
unsigned integer), and an injected tag-extraction function fixed at
construction.  We embed `Addr` as `Nat`; the only operations the class
performs on addresses are assignment and equality comparison, so no
modular arithmetic is needed.  `MaxAddr` is
`std::numeric_limits<Addr>::max() = 2^64 - 1`.

The mutating method `insert` calls `setValid`, which carries
`assert(!isValid())`; we embed that fallible path as `Option`: `none`
models the fatal assertion failure, `some e` the updated entry.
Observer methods (`isValid`, `getTag`, `match`) are additionally given
state-passing variants (`isValidS`, `getTagS`, `matchS`) that return the
post-call entry alongside the result, so that the frame property
("observers never change state") is an actual statement about the
translated method bodies.
-/

namespace Gem5

/-- Embedding of `MaxAddr`, i.e. `std::numeric_limits<uint64_t>::max()`. -/
def MaxAddr : Nat := 2 ^ 64 - 1

/-- Embedding of the fields of `gem5::CacheEntry`: the injected tag
extractor, the valid bit and the stored tag. -/
structure CacheEntry where
  extractTag : Nat → Nat
  valid : Bool
  tag : Nat

namespace CacheEntry

/-- Embedding of the constructor `CacheEntry(TagExtractor ext)`, which
initializes `valid(false), tag(MaxAddr)`. -/
def init (ext : Nat → Nat) : CacheEntry :=
  { extractTag := ext, valid := false, tag := MaxAddr }

/-- Embedding of `isValid(): return valid;`. -/
def isValid (e : CacheEntry) : Bool := e.valid

/-- Embedding of `getTag(): return tag;`. -/
def getTag (e : CacheEntry) : Nat := e.tag

/-- Embedding of `match(addr): return isValid() && (getTag() == extractTag(addr));`. -/
def «match» (e : CacheEntry) (addr : Nat) : Bool :=
  e.isValid && (e.getTag == e.extractTag addr)

/-- Embedding of `setTag(_tag): tag = _tag;`. -/
def setTag (e : CacheEntry) (t : Nat) : CacheEntry := { e with tag := t }

/-- Embedding of `setValid(): assert(!isValid()); valid = true;`.
The assertion failure is modelled as `none`. -/
def setValid (e : CacheEntry) : Option CacheEntry :=
  if e.isValid then none else some { e with valid := true }

/-- Embedding of `insert(addr): setValid(); setTag(extractTag(addr));`. -/
def insert (e : CacheEntry) (addr : Nat) : Option CacheEntry :=
  (e.setValid).map (fun e1 => e1.setTag (e1.extractTag addr))

/-- Embedding of `invalidate(): valid = false; setTag(MaxAddr);`. -/
def invalidate (e : CacheEntry) : CacheEntry :=
  ({ e with valid := false }).setTag MaxAddr

/-- State-passing translation of the method body of `isValid`, returning
the result together with the entry after the call.  The body reads the
field `valid` and performs no writes. -/
def isValidS (e : CacheEntry) : Bool × CacheEntry := (e.valid, e)

/-- State-passing translation of the method body of `getTag`, returning
the result together with the entry after the call.  The body reads the
field `tag` and performs no writes. -/
def getTagS (e : CacheEntry) : Nat × CacheEntry := (e.tag, e)

/-- State-passing translation of the method body of `match`, threading
the entry through its calls to `isValid`, `getTag` and `extractTag`.
None of the callees writes any field. -/
def matchS (e : CacheEntry) (addr : Nat) : Bool × CacheEntry :=
  let (v, e1) := e.isValidS
  if v then
    let (t, e2) := e1.getTagS
    (t == e2.extractTag addr, e2)
  else
    (false, e1)

end CacheEntry

end Gem5

namespace Gem5

namespace CacheEntry

/-- C1: for every address `a` and every entry that is invalid immediately
before the call, `insert a` succeeds and establishes `isValid = true` and
`getTag = extractTag a`. -/
theorem insert_sets_valid_and_tag (e : CacheEntry) (a : Nat)
    (h : e.isValid = false) :
    ∃ e1, e.insert a = some e1 ∧ e1.isValid = true ∧
      e1.getTag = e.extractTag a := by
  refine ⟨{ e with valid := true, tag := e.extractTag a }, ?_, rfl, rfl⟩
  simp [insert, setValid, setTag, h]

/-- Witness for C1 at a concrete entry and address. -/
theorem insert_sets_valid_and_tag_witness :
    (init (fun x => x + 1)).isValid = false ∧
    ∃ e1, (init (fun x => x + 1)).insert 3 = some e1 ∧
      e1.isValid = true ∧
      e1.getTag = (init (fun x => x + 1)).extractTag 3 :=
  ⟨rfl, insert_sets_valid_and_tag (init (fun x => x + 1)) 3 rfl⟩

/-- C2: after `insert a` on a previously invalid entry, `match b` returns
true exactly when `extractTag b = extractTag a`. -/
theorem match_after_insert (e e1 : CacheEntry) (a : Nat)
    (hinv : e.isValid = false) (hins : e.insert a = some e1) (b : Nat) :
    e1.«match» b = true ↔ e.extractTag b = e.extractTag a := by
  have hv : e.valid = false := hinv
  simp only [insert, setValid, isValid, hv, Bool.false_eq_true, if_false,
    Option.map_some, Option.map_some', Option.some_inj] at hins
  subst hins
  simp [«match», isValid, getTag, setTag]
  exact eq_comm

/-- Witness for C2 at a concrete entry and addresses. -/
theorem match_after_insert_witness :
    (init (fun x => x / 4)).isValid = false ∧
    (init (fun x => x / 4)).insert 8 =
      some { init (fun x => x / 4) with valid := true, tag := 2 } ∧
    ({ init (fun x => x / 4) with valid := true, tag := 2 }.«match» 9 = true ↔
      (init (fun x => x / 4)).extractTag 9 = (init (fun x => x / 4)).extractTag 8) :=
  ⟨rfl, rfl, match_after_insert (init (fun x => x / 4)) _ 8 rfl rfl 9⟩

/-- C3: `insert a` hits the fatal assertion (modelled as `none`) exactly
when the entry is already valid; on an invalid entry it completes without
error. -/
theorem insert_none_iff_valid (e : CacheEntry) (a : Nat) :
    e.insert a = none ↔ e.isValid = true := by
  cases h : e.valid <;>
    simp [insert, setValid, isValid, h]

/-- C4: after `invalidate`, the entry is invalid, its tag holds the
sentinel `MaxAddr`, and `match b` is false for every address `b`. -/
theorem invalidate_resets (e : CacheEntry) (b : Nat) :
    (e.invalidate).isValid = false ∧ (e.invalidate).getTag = MaxAddr ∧
      (e.invalidate).«match» b = false := by
  refine ⟨rfl, rfl, ?_⟩
  simp [«match», invalidate, setTag, isValid]

/-- C5: a freshly constructed entry is invalid, holds the sentinel tag
`MaxAddr`, and matches no address. -/
theorem init_state (ext : Nat → Nat) (a : Nat) :
    (init ext).isValid = false ∧ (init ext).getTag = MaxAddr ∧
      (init ext).«match» a = false := by
  refine ⟨rfl, rfl, ?_⟩
  simp [«match», init, isValid]

/-- C6: `invalidate` is idempotent: two consecutive calls leave the entry
in exactly the state one call produces. -/
theorem invalidate_idempotent (e : CacheEntry) :
    e.invalidate.invalidate = e.invalidate := rfl

/-- C7: `isValid`, `getTag` and `match` are pure observers: the
state-passing translations of their bodies return the entry unchanged,
and their results agree with the pure functions. -/
theorem observers_pure (e : CacheEntry) (a : Nat) :
    (e.isValidS).2 = e ∧ (e.getTagS).2 = e ∧ (e.matchS a).2 = e ∧
      (e.isValidS).1 = e.isValid ∧ (e.getTagS).1 = e.getTag ∧
      (e.matchS a).1 = e.«match» a := by
  cases h : e.valid <;>
    simp [isValidS, getTagS, matchS, «match», isValid, getTag, h]

/-- C8: concrete scenario with `extractTag a = a >>> 2`: inserting
`0x1004` into a fresh entry yields tag `0x401` and a valid entry;
`match 0x1006` is true, `match 0x1008` is false; after `invalidate`,
the entry is invalid and `match 0x1004` is false. -/
theorem scenario_shift_two :
    ∃ E1, (init (fun a => a >>> 2)).insert 0x1004 = some E1 ∧
      E1.getTag = 0x401 ∧ E1.isValid = true ∧
      E1.«match» 0x1006 = true ∧ E1.«match» 0x1008 = false ∧
      (E1.invalidate).isValid = false ∧
      (E1.invalidate).«match» 0x1004 = false := by
  refine ⟨_, rfl, ?_, rfl, ?_, ?_, rfl, ?_⟩ <;> decide

/-- C9: `invalidate` alone, and the sequence `invalidate; insert a;
invalidate`, both leave the entry in exactly the state of a freshly
constructed entry with the same tag extractor. -/
theorem invalidate_roundtrip (e : CacheEntry) (a : Nat) :
    e.invalidate = init e.extractTag ∧
      ∃ e1, (e.invalidate).insert a = some e1 ∧
        e1.invalidate = init e.extractTag :=
  ⟨rfl, ⟨_, rfl, rfl⟩⟩

/-- C10: the sentinel is not guarded: with an extractor that yields
`MaxAddr` for address `0`, `insert 0` on a fresh entry produces a valid
entry whose tag equals the sentinel `MaxAddr`, so `getTag = MaxAddr`
does not imply invalidity. -/
theorem sentinel_not_guarded :
    (init (fun _ => MaxAddr)).extractTag 0 = MaxAddr ∧
    ∃ e1, (init (fun _ => MaxAddr)).insert 0 = some e1 ∧
      e1.isValid = true ∧ e1.getTag = MaxAddr :=
  ⟨rfl, ⟨_, rfl, rfl, rfl⟩⟩

end CacheEntry

end Gem5
